import Mathlib

/-!
Shallow embedding of the network discovery scanner
(`internal/scanner/scanner.go`, `internal/scanner/ping.go` of
martinsuchenak/devicemanager) and proofs about it.

Modelling conventions:
* IPv4 addresses are natural numbers `< 2^32`; `ipv4 a b c d` builds the
  usual dotted-quad value.  The Go code manipulates addresses as 4-byte
  big-endian slices and walks them with a carrying increment; over one CIDR
  block this is exactly `network + i` for `i` below the block size.
* Exclusion-list entries are strings in Go; an entry is either parseable as
  a CIDR block, or a literal address, or malformed (the three cases
  `net.ParseCIDR` / string equality distinguish), so they are embedded as a
  three-way sum `ExclEntry`.
* Network I/O results (ICMP availability, ARP, reverse DNS, TCP dials,
  service banners) are oracles supplied in a `HostEnv`; the code under
  test only branches on their outcomes.
* The Go orchestrator runs per-host goroutines whose shared-counter
  updates are serialized by one mutex; the embedding runs the hosts as a
  sequential fold (`List.foldl hostStep`), which realizes one admissible
  serialization of those critical sections.  `ScanPorts` likewise collects
  its concurrently discovered open ports in candidate order.
-/

namespace Rackd

set_option maxRecDepth 8000

/-- Model of `model.ServiceInfo` (only the fields the scanner reads). -/
structure ServiceInfo where
  port : Nat := 0
  protocol : String := "tcp"
  banner : String := ""
  service : String := ""
  version : String := ""
deriving DecidableEq

/-- Model of `model.DiscoveredDevice` (fields used by the scanner). -/
structure DiscoveredDevice where
  ip : Nat := 0
  macAddress : String := ""
  hostname : String := ""
  status : String := "unknown"
  confidence : Nat := 0
  osGuess : String := ""
  osFamily : String := ""
  openPorts : List Nat := []
  services : List ServiceInfo := []
deriving DecidableEq

/-- An exclusion-list entry as `isExcluded` discriminates it: an entry
string either parses as a CIDR block, or is a literal address (an address
string never contains a slash, so the two cases are disjoint), or is
malformed. -/
inductive ExclEntry where
  | cidrBlock (base ones : Nat)
  | literal (addr : Nat)
  | malformed
deriving DecidableEq

/-- Model of `model.DiscoveryRule` (fields used by the scanner). -/
structure DiscoveryRule where
  scanType : String := "full"
  scanPorts : Bool := true
  portScanType : String := "common"
  customPorts : List Nat := []
  serviceDetection : Bool := false
  osDetection : Bool := false
  excludeIPs : List ExclEntry := []
  timeoutSeconds : Nat := 5
deriving DecidableEq

/-- Model of `model.DiscoveryScan`: the run record mutated by
`ScanNetwork`.  Timestamps are modelled as "has been set" booleans. -/
structure DiscoveryScan where
  status : String := "pending"
  scanType : String := ""
  scanDepth : Nat := 0
  totalHosts : Nat := 0
  scannedHosts : Nat := 0
  foundHosts : Nat := 0
  progressPercent : ℚ := 0
  errorMessage : String := ""
  startedAt : Bool := false
  completedAt : Bool := false
deriving DecidableEq

/-- `ip.Mask(mask)` for a prefix of `ones` bits: clear the low
`32 - ones` bits. -/
def maskAddr (ones x : Nat) : Nat :=
  x / 2 ^ (32 - ones) * 2 ^ (32 - ones)

/-- `ipNet.Contains(x)` for the block `base/ones`: the masked address
equals the masked base. -/
def cidrContains (base ones x : Nat) : Bool :=
  maskAddr ones x == maskAddr ones base

/-- Dotted-quad IPv4 value. -/
def ipv4 (a b c d : Nat) : Nat :=
  ((a * 256 + b) * 256 + c) * 256 + d

/-- Embedding of `generateIPList` for an already-parsed CIDR `base/ones`:
walk every address of the block upward from the network address
(`network + i` for `i` below the block size, exactly the Go loop
`for ip := ipNet.IP.Mask(ipNet.Mask); ipNet.Contains(ip); inc(ip)`),
skipping the network and broadcast addresses when `ones ≤ 30`. -/
def generateIPList (base ones : Nat) : List Nat :=
  let size := 2 ^ (32 - ones)
  let network := maskAddr ones base
  let broadcast := network + size - 1
  ((List.range size).map (fun i => network + i)).filter
    (fun ip => !(decide (ones ≤ 30) && (ip == network || ip == broadcast)))

/-- Embedding of `isExcluded`: an address is excluded iff some entry
parses as a CIDR block containing it, or some entry is the literal
address; malformed entries never match. -/
def isExcluded (ip : Nat) (excludeList : List ExclEntry) : Bool :=
  excludeList.any fun excl =>
    match excl with
    | .cidrBlock base ones => cidrContains base ones ip
    | .literal addr => addr == ip
    | .malformed => false

/-- Embedding of `PingScanner.Ping`.  `privileged` is the raw-ICMP
privilege probed once at startup; `pingerOk` is whether `ping.NewPinger`
succeeded; `packetsRecv` the echo replies received within the timeout.
An unprivileged process returns not-alive with a nil error. -/
def Ping (privileged pingerOk : Bool) (packetsRecv : Nat) :
    Bool × Option String :=
  if !privileged then (false, none)
  else if !pingerOk then (false, some "creating pinger")
  else (decide (packetsRecv > 0), none)

/-- `CommonPorts` from `internal/scanner` (the default TCP scan list). -/
def CommonPorts : List Nat :=
  [21, 22, 23, 25, 53, 80, 110, 111, 135, 139,
   143, 443, 445, 993, 995, 1723, 3306, 3389, 5900, 8080]

/-- Embedding of `PortScanner.getPortsToScan`. -/
def getPortsToScan (rule : DiscoveryRule) : List Nat :=
  if !rule.scanPorts then []
  else
    match rule.portScanType with
    | "common" => CommonPorts
    | "full" => CommonPorts
    | "custom" =>
      if rule.customPorts.length > 0 then rule.customPorts else CommonPorts
    | _ => CommonPorts

/-- Embedding of `PortScanner.ScanPorts`: one TCP dial per candidate port
(outcome given by the oracle `connOk`); a port is open iff its dial
succeeded within the timeout.  The Go version collects the open ports
concurrently under a mutex; the embedding lists them in candidate order.
The error result is always nil. -/
def ScanPorts (connOk : Nat → Bool) (rule : DiscoveryRule) :
    List Nat × Option String :=
  let ports := getPortsToScan rule
  if ports.length == 0 then ([], none)
  else (ports.filter connOk, none)

/-- An OS guess, as in `scanner.OSGuess`. -/
structure OSGuess where
  os : String
  family : String
deriving DecidableEq

/-- Embedding of `containsAny`. -/
def containsAny (slice values : List Nat) : Bool :=
  values.any fun v => slice.any fun s => s == v

/-- One iteration of the service loop in `guessOS`: an identified SSH
service upgrades a still-unknown guess. -/
def sshUpgrade (g : OSGuess) (svc : ServiceInfo) : OSGuess :=
  if svc.service == "SSH" then
    if g.family == "Unknown" then ⟨"Linux/Unix", "Unix"⟩ else g
  else g

/-- Embedding of `guessOS`: passive port-pattern analysis followed by the
SSH-service upgrade loop. -/
def guessOS (device : DiscoveredDevice) : OSGuess :=
  let hasWindowsPorts := containsAny device.openPorts [135, 139, 445, 3389]
  let hasLinuxPorts := containsAny device.openPorts [22, 111, 2049]
  let hasUnixPorts := containsAny device.openPorts [22, 111]
  let fromPorts : OSGuess :=
    if hasWindowsPorts && !hasLinuxPorts then ⟨"Windows", "Windows"⟩
    else if hasLinuxPorts && !hasWindowsPorts then ⟨"Linux", "Unix"⟩
    else if hasUnixPorts then ⟨"Unix-like", "Unix"⟩
    else ⟨"Unknown", "Unknown"⟩
  device.services.foldl sshUpgrade fromPorts

/-- Embedding of `calculateConfidence`. -/
def calculateConfidence (device : DiscoveredDevice) : Nat :=
  let score := 50
  let score := if device.macAddress != "" then score + 20 else score
  let score := if device.hostname != "" then score + 15 else score
  let score := if device.openPorts.length > 0 then score + 10 else score
  let score := if device.osGuess != "" then score + 5 else score
  if score > 100 then 100 else score

/-- Embedding of `getDepthFromType`. -/
def getDepthFromType (scanType : String) : Nat :=
  match scanType with
  | "quick" => 1
  | "full" => 3
  | "deep" => 5
  | _ => 2

/-- Oracle outcomes of one host's network I/O: ICMP privilege and result,
ARP lookup (`some mac` iff `GetMAC` returned nil error), reverse DNS
(`some name` iff `getHostname` returned nil error), per-port TCP dial
success, and the service-detection result. -/
structure HostEnv where
  privileged : Bool := false
  pingerOk : Bool := true
  packetsRecv : Nat := 0
  macRes : Option String := none
  hostnameRes : Option String := none
  connOk : Nat → Bool := fun _ => false
  services : List ServiceInfo := []

/-- Embedding of `scanHost`: the five-stage per-host pipeline. -/
def scanHost (rule : DiscoveryRule) (env : HostEnv) (ip : Nat) :
    Option DiscoveredDevice × Option String :=
  let pingRes := Ping env.privileged env.pingerOk env.packetsRecv
  let alive := pingRes.1
  let pingErr := pingRes.2
  if rule.scanType == "quick" && (!alive || pingErr.isSome) then
    (none, none)
  else
    let device : DiscoveredDevice := { ip := ip, status := "unknown" }
    let device :=
      if alive then
        let device := { device with status := "online" }
        let device :=
          match env.macRes with
          | some mac => { device with macAddress := mac }
          | none => device
        match env.hostnameRes with
        | some h => { device with hostname := h }
        | none => device
      else device
    let device :=
      if rule.scanPorts && rule.scanType != "quick" then
        let portsRes := ScanPorts env.connOk rule
        if portsRes.2.isNone && portsRes.1.length > 0 then
          let device := { device with openPorts := portsRes.1 }
          if device.status == "unknown" then
            { device with status := "online" }
          else device
        else device
      else device
    let device :=
      if rule.serviceDetection && device.openPorts.length > 0 then
        { device with services := env.services }
      else device
    let device :=
      if rule.osDetection then
        let osGuess := guessOS device
        { device with osGuess := osGuess.os, osFamily := osGuess.family }
      else device
    let device := { device with confidence := calculateConfidence device }
    (some device, none)

/-- Mutable state of one `ScanNetwork` run: the scan record, the devices
handed to `CreateOrUpdateDiscoveredDevice`, and the snapshots handed to
the update callback. -/
structure RunState where
  scan : DiscoveryScan
  persisted : List DiscoveredDevice := []
  updates : List DiscoveryScan := []

/-- One host's goroutine body in `ScanNetwork`, as the serialization of
its lock-protected critical sections: skip excluded addresses; scan the
host (skipping on a per-host error); on a non-nil device bump the found
counter and persist; then bump the scanned counter, recompute the
progress percentage, and report every 50th or final host. -/
def hostStep (rule : DiscoveryRule) (hostEnvOf : Nat → HostEnv)
    (st : RunState) (ip : Nat) : RunState :=
  if isExcluded ip rule.excludeIPs then st
  else
    match scanHost rule (hostEnvOf ip) ip with
    | (_, some _) => st
    | (deviceOpt, none) =>
      let st :=
        match deviceOpt with
        | some device =>
          { st with
              scan := { st.scan with foundHosts := st.scan.foundHosts + 1 }
              persisted := st.persisted ++ [device] }
        | none => st
      let scan : DiscoveryScan :=
        { st.scan with scannedHosts := st.scan.scannedHosts + 1 }
      let shouldUpdate :=
        scan.scannedHosts % 50 == 0 || scan.scannedHosts == scan.totalHosts
      let scan : DiscoveryScan :=
        if 0 < scan.totalHosts then
          { scan with progressPercent :=
              (scan.scannedHosts : ℚ) / (scan.totalHosts : ℚ) * 100 }
        else scan
      let st := { st with scan := scan }
      if shouldUpdate then { st with updates := st.updates ++ [scan] }
      else st

/-- Environment of one `ScanNetwork` run: the store's answer to
`GetNetwork` (on success, the parse of the network's subnet — `none`
when the CIDR does not parse), and the per-host I/O oracles. -/
structure NetEnv where
  getNetworkRes : Except String (Option (Nat × Nat))
  hostEnvOf : Nat → HostEnv := fun _ => {}

/-- Embedding of `ScanNetwork`.  Returns the final scan record, the
sequence of snapshots passed to the update callback, the persisted
devices, and the returned error. -/
def ScanNetwork (env : NetEnv) (rule : DiscoveryRule) :
    DiscoveryScan × List DiscoveryScan × List DiscoveredDevice ×
      Option String :=
  let scan : DiscoveryScan :=
    { status := "running"
      scanType := rule.scanType
      scanDepth := getDepthFromType rule.scanType
      startedAt := true }
  let updates := [scan]
  match env.getNetworkRes with
  | .error e =>
    let scan :=
      { scan with
          status := "failed"
          errorMessage := "getting network: " ++ e
          completedAt := true }
    (scan, updates ++ [scan], [], some ("getting network: " ++ e))
  | .ok none =>
    let scan :=
      { scan with
          status := "failed"
          errorMessage := "generating IP list: invalid CIDR address"
          completedAt := true }
    (scan, updates ++ [scan], [],
      some "generating IP list: invalid CIDR address")
  | .ok (some (base, ones)) =>
    let ips := generateIPList base ones
    let scan := { scan with totalHosts := ips.length }
    let updates := updates ++ [scan]
    let stInit : RunState := ⟨scan, [], updates⟩
    let stEnd := ips.foldl (hostStep rule env.hostEnvOf) stInit
    let finalScan := { stEnd.scan with status := "completed", completedAt := true }
    (finalScan, stEnd.updates ++ [finalScan], stEnd.persisted, none)

/-- A concrete discovery rule excluding 10.0.1.1, used to exercise a run
in which a candidate host is excluded. -/
def ruleExcludingOne : DiscoveryRule :=
  { scanType := "quick", excludeIPs := [ExclEntry.literal (ipv4 10 0 1 1)] }

/-- A concrete run environment over the subnet 10.0.1.0/30. -/
def envSlash30 : NetEnv :=
  { getNetworkRes := .ok (some (ipv4 10 0 1 0, 30)) }

/-! ### Helper lemmas -/

/-- `scanHost` returns a nil error on every path. -/
theorem scanHost_snd_none (rule : DiscoveryRule) (env : HostEnv) (ip : Nat) :
    (scanHost rule env ip).2 = none := by
  by_cases h : (rule.scanType == "quick" &&
      (!(Ping env.privileged env.pingerOk env.packetsRecv).1 ||
        (Ping env.privileged env.pingerOk env.packetsRecv).2.isSome)) = true
  · simp [scanHost, h]
  · simp [scanHost, h]

/-- On a non-quick scan, `scanHost` always produces a device. -/
theorem scanHost_some_of_not_quick (rule : DiscoveryRule) (env : HostEnv)
    (ip : Nat) (h : rule.scanType ≠ "quick") :
    ∃ d, scanHost rule env ip = (some d, none) := by
  have hc : (rule.scanType == "quick") = false := beq_eq_false_iff_ne.mpr h
  simp only [scanHost, hc, Bool.false_and, if_false]
  exact ⟨_, rfl⟩

/-! ### C4 -/

/-- C4: `calculateConfidence` returns 50 plus exactly +20 for a resolved
MAC, +15 for a resolved hostname, +10 for a nonempty open-port set and
+5 for an OS guess (the 100 cap never binds because the sum is at most
100); hence the result is always in [50,100], and all four signals give
exactly 100. -/
theorem calculateConfidence_bounds (d : DiscoveredDevice) :
    calculateConfidence d =
      50 + (if d.macAddress ≠ "" then 20 else 0) +
        (if d.hostname ≠ "" then 15 else 0) +
        (if d.openPorts.length > 0 then 10 else 0) +
        (if d.osGuess ≠ "" then 5 else 0) ∧
    50 ≤ calculateConfidence d ∧ calculateConfidence d ≤ 100 ∧
    (d.macAddress ≠ "" → d.hostname ≠ "" → d.openPorts.length > 0 →
      d.osGuess ≠ "" → calculateConfidence d = 100) := by
  unfold calculateConfidence
  by_cases h1 : d.macAddress = "" <;> by_cases h2 : d.hostname = "" <;>
    by_cases h3 : d.openPorts.length > 0 <;> by_cases h4 : d.osGuess = "" <;>
    simp [h1, h2, h3, h4]

/-- Concrete instance of C4: all four signals yield confidence 100. -/
theorem calculateConfidence_bounds_witness :
    calculateConfidence
      { macAddress := "aa:bb:cc:dd:ee:ff", hostname := "host1",
        openPorts := [22], osGuess := "Linux" } = 100 :=
  (calculateConfidence_bounds _).2.2.2 (by decide) (by decide) (by decide)
    (by decide)

/-! ### C3 -/

/-- C3: an unprivileged process's `Ping` always returns not-alive with a
nil error; under `scan_type = quick` a host whose probe is not-alive or
errored produces no device record; hence a quick scan on an unprivileged
process produces no device record for any host. -/
theorem quick_scan_ping_gate :
    (∀ pingerOk packetsRecv,
      Ping false pingerOk packetsRecv = (false, none)) ∧
    (∀ (rule : DiscoveryRule) (env : HostEnv) (ip : Nat),
      rule.scanType = "quick" →
      ((Ping env.privileged env.pingerOk env.packetsRecv).1 = false ∨
        (Ping env.privileged env.pingerOk env.packetsRecv).2.isSome = true) →
      scanHost rule env ip = (none, none)) ∧
    (∀ (rule : DiscoveryRule) (env : HostEnv) (ip : Nat),
      rule.scanType = "quick" → env.privileged = false →
      scanHost rule env ip = (none, none)) := by
  have h1 : ∀ pingerOk packetsRecv,
      Ping false pingerOk packetsRecv = (false, none) := by
    intro pingerOk packetsRecv
    simp [Ping]
  have h2 : ∀ (rule : DiscoveryRule) (env : HostEnv) (ip : Nat),
      rule.scanType = "quick" →
      ((Ping env.privileged env.pingerOk env.packetsRecv).1 = false ∨
        (Ping env.privileged env.pingerOk env.packetsRecv).2.isSome = true) →
      scanHost rule env ip = (none, none) := by
    intro rule env ip hq hdown
    have hbeq : (rule.scanType == "quick") = true := beq_iff_eq.mpr hq
    rcases hdown with hdown | hdown
    · simp [scanHost, hbeq, hdown]
    · simp [scanHost, hbeq, hdown]
  refine ⟨h1, h2, ?_⟩
  intro rule env ip hq hp
  exact h2 rule env ip hq (Or.inl (by rw [hp, h1]))

/-- Concrete instance of C3: a quick scan of an unprivileged process
yields no device for a host. -/
theorem quick_scan_ping_gate_witness :
    scanHost { scanType := "quick" } {} 0 = (none, none) :=
  quick_scan_ping_gate.2.2 { scanType := "quick" } {} 0 rfl rfl

/-! ### C10 -/

/-- C10: `scanHost` returns a nil error on every input (so the per-host
error-skip branch of `ScanNetwork` is unreachable), and on every
non-quick scan it returns a device — even with no ping response, no MAC,
no hostname, and no open ports, in which case the device's status is
"unknown". -/
theorem scanHost_never_errors (rule : DiscoveryRule) (env : HostEnv)
    (ip : Nat) :
    (scanHost rule env ip).2 = none ∧
    (¬∃ e, (scanHost rule env ip).2 = some e) ∧
    (rule.scanType ≠ "quick" → ∃ d, scanHost rule env ip = (some d, none)) ∧
    (rule.scanType ≠ "quick" → env.privileged = false →
      (env.connOk = fun _ => false) →
      ∃ d, (scanHost rule env ip).1 = some d ∧ d.status = "unknown") := by
  refine ⟨scanHost_snd_none rule env ip, ?_, scanHost_some_of_not_quick rule env ip, ?_⟩
  · rintro ⟨e, he⟩
    rw [scanHost_snd_none] at he
    exact Option.noConfusion he
  · intro hq hp hc
    have hbeq : (rule.scanType == "quick") = false := beq_eq_false_iff_ne.mpr hq
    by_cases hsp : rule.scanPorts <;> by_cases ho : rule.osDetection <;>
      simp [scanHost, Ping, hp, hbeq, hc, ScanPorts, hsp, ho, List.filter_eq_nil_iff]

/-- Concrete instance of C10: a full scan of a dead, silent host still
yields a device record with status "unknown". -/
theorem scanHost_never_errors_witness :
    ∃ d, (scanHost { scanType := "full" } {} 7).1 = some d ∧
      d.status = "unknown" :=
  (scanHost_never_errors { scanType := "full" } {} 7).2.2.2 (by decide) rfl rfl

/-! ### Port-scanning helpers -/

/-- The open-port set of `ScanPorts` is the dial-filtered candidate set. -/
theorem ScanPorts_fst (connOk : Nat → Bool) (rule : DiscoveryRule) :
    (ScanPorts connOk rule).1 = (getPortsToScan rule).filter connOk := by
  unfold ScanPorts
  by_cases h : (getPortsToScan rule).length == 0
  · have hnil : getPortsToScan rule = [] := by
      simpa [List.length_eq_zero] using h
    simp [h, hnil]
  · simp [h]

/-- `ScanPorts` returns a nil error on every path. -/
theorem ScanPorts_snd (connOk : Nat → Bool) (rule : DiscoveryRule) :
    (ScanPorts connOk rule).2 = none := by
  unfold ScanPorts
  by_cases h : (getPortsToScan rule).length == 0 <;> simp [h]

/-- When the port-scan gate of `scanHost` is on, the produced device's
open-port set is exactly the dial-filtered candidate set, whatever the
ping outcome was. -/
theorem scanHost_openPorts (rule : DiscoveryRule) (env : HostEnv) (ip : Nat)
    (hq : rule.scanType ≠ "quick") (hsp : rule.scanPorts = true)
    (d : DiscoveredDevice) (hd : (scanHost rule env ip).1 = some d) :
    d.openPorts = (getPortsToScan rule).filter env.connOk := by
  have hbeq : (rule.scanType == "quick") = false := beq_eq_false_iff_ne.mpr hq
  by_cases hl : 0 < ((getPortsToScan rule).filter env.connOk).length
  · rcases hm : env.macRes with _ | mac <;> rcases hh : env.hostnameRes with _ | hn <;>
      by_cases ha : (Ping env.privileged env.pingerOk env.packetsRecv).1 = true <;>
      simp [scanHost, hbeq, hsp, hm, hh, ha, hl, hq, ScanPorts_fst, ScanPorts_snd,
        apply_ite (fun x : DiscoveredDevice => x.openPorts)] at hd <;>
      simp [← hd, hl]
  · have hfil : (getPortsToScan rule).filter env.connOk = [] :=
      List.length_eq_zero.mp (Nat.eq_zero_of_not_pos hl)
    rcases hm : env.macRes with _ | mac <;> rcases hh : env.hostnameRes with _ | hn <;>
      by_cases ha : (Ping env.privileged env.pingerOk env.packetsRecv).1 = true <;>
      simp [scanHost, hbeq, hsp, hm, hh, ha, hfil, hq, ScanPorts_fst, ScanPorts_snd,
        apply_ite (fun x : DiscoveredDevice => x.openPorts)] at hd <;>
      simp [← hd, hfil, apply_ite (fun x : DiscoveredDevice => x.openPorts)]

/-- When the port-scan gate of `scanHost` is off, the produced device has
no open ports. -/
theorem scanHost_openPorts_nil (rule : DiscoveryRule) (env : HostEnv)
    (ip : Nat) (d : DiscoveredDevice)
    (h : rule.scanPorts = false ∨ rule.scanType = "quick")
    (hd : (scanHost rule env ip).1 = some d) :
    d.openPorts = [] := by
  rcases hpr : Ping env.privileged env.pingerOk env.packetsRecv with ⟨al, er⟩
  by_cases hq : rule.scanType = "quick"
  · have hbeq : (rule.scanType == "quick") = true := beq_iff_eq.mpr hq
    rcases hm : env.macRes with _ | mac <;> rcases hh : env.hostnameRes with _ | hn <;>
      cases al <;> rcases er with _ | e <;>
      simp [scanHost, hpr, hbeq, hq, hm, hh,
        apply_ite (fun x : DiscoveredDevice => x.openPorts)] at hd <;>
      simp [← hd, hq, apply_ite (fun x : DiscoveredDevice => x.openPorts)]
  · have hsp : rule.scanPorts = false := by tauto
    have hbeq : (rule.scanType == "quick") = false := beq_eq_false_iff_ne.mpr hq
    rcases hm : env.macRes with _ | mac <;> rcases hh : env.hostnameRes with _ | hn <;>
      cases al <;> rcases er with _ | e <;>
      simp [scanHost, hpr, hbeq, hsp, hm, hh,
        apply_ite (fun x : DiscoveredDevice => x.openPorts)] at hd <;>
      simp [← hd, apply_ite (fun x : DiscoveredDevice => x.openPorts)]

/-- A host with a not-alive ping but at least one open port is promoted
to status "online". -/
theorem scanHost_promotes_online (rule : DiscoveryRule) (env : HostEnv)
    (ip : Nat) (hsp : rule.scanPorts = true) (hq : rule.scanType ≠ "quick")
    (ha : (Ping env.privileged env.pingerOk env.packetsRecv).1 = false)
    (hne : (getPortsToScan rule).filter env.connOk ≠ []) :
    ∃ d, (scanHost rule env ip).1 = some d ∧ d.status = "online" := by
  have hbeq : (rule.scanType == "quick") = false := beq_eq_false_iff_ne.mpr hq
  have hl : 0 < ((getPortsToScan rule).filter env.connOk).length :=
    List.length_pos.mpr hne
  simp [scanHost, hbeq, hsp, ha, hq, hl, ScanPorts_fst, ScanPorts_snd,
    apply_ite (fun x : DiscoveredDevice => x.status)]

/-! ### C6 -/

/-- C6 counterexample: with `port_scan_type = custom` and an empty
`custom_ports` list, the scanned port set is the common list, not the
(empty) custom list as the claim states. -/
theorem portScan_custom_empty_cex :
    getPortsToScan { scanPorts := true, portScanType := "custom", customPorts := [] } ≠
      ({ scanPorts := true, portScanType := "custom", customPorts := [] } : DiscoveryRule).customPorts ∧
    getPortsToScan { scanPorts := true, portScanType := "custom", customPorts := [] } =
      CommonPorts := by
  refine ⟨?_, by decide⟩
  decide

/-- C6 (amended): the port prober runs for a host iff `scan_type ≠ quick`
and `scan_ports = true` (whatever the ping outcome); the port set is the
common list for `common` and `full` (full is downgraded), and the
custom list for `custom` whenever that list is nonempty (an empty custom
list falls back to the common list). -/
theorem portScan_policy (rule : DiscoveryRule) (env : HostEnv) (ip : Nat) :
    (rule.scanPorts = true → rule.portScanType = "common" →
      getPortsToScan rule = CommonPorts) ∧
    (rule.scanPorts = true → rule.portScanType = "full" →
      getPortsToScan rule = CommonPorts) ∧
    (rule.scanPorts = true → rule.portScanType = "custom" →
      rule.customPorts ≠ [] → getPortsToScan rule = rule.customPorts) ∧
    (rule.scanPorts = false → getPortsToScan rule = []) ∧
    (rule.scanPorts = true → rule.scanType ≠ "quick" →
      ∀ d, (scanHost rule env ip).1 = some d →
        d.openPorts = (getPortsToScan rule).filter env.connOk) ∧
    (rule.scanPorts = false ∨ rule.scanType = "quick" →
      ∀ d, (scanHost rule env ip).1 = some d → d.openPorts = []) := by
  refine ⟨?_, ?_, ?_, ?_, ?_, ?_⟩
  · intro h1 h2; simp [getPortsToScan, h1, h2]
  · intro h1 h2; simp [getPortsToScan, h1, h2]
  · intro h1 h2 h3
    simp [getPortsToScan, h1, h2, List.length_pos.mpr h3]
  · intro h1; simp [getPortsToScan, h1]
  · intro h1 h2 d hd; exact scanHost_openPorts rule env ip h2 h1 d hd
  · intro h d hd; exact scanHost_openPorts_nil rule env ip d h hd

/-- Concrete instance of C6 (amended): a nonempty custom list is used
as-is; the default rule scans the common list. -/
theorem portScan_policy_witness :
    getPortsToScan { portScanType := "custom", customPorts := [8080] } = [8080] ∧
    getPortsToScan {} = CommonPorts :=
  ⟨(portScan_policy { portScanType := "custom", customPorts := [8080] } {} 0).2.2.1
      rfl rfl (by decide),
    (portScan_policy {} {} 0).1 rfl rfl⟩

/-! ### C7 -/

/-- C7: the open-port set of `ScanPorts` contains exactly the candidate
ports whose dial succeeded within the timeout; and when some port is
open while the host's status is still "unknown" (ping not alive), the
host is promoted to "online". -/
theorem scanPorts_open_iff (connOk : Nat → Bool) (rule : DiscoveryRule)
    (env : HostEnv) (ip : Nat) :
    (∀ p, p ∈ (ScanPorts connOk rule).1 ↔
      p ∈ getPortsToScan rule ∧ connOk p = true) ∧
    (rule.scanPorts = true → rule.scanType ≠ "quick" →
      (Ping env.privileged env.pingerOk env.packetsRecv).1 = false →
      (ScanPorts env.connOk rule).1 ≠ [] →
      ∃ d, (scanHost rule env ip).1 = some d ∧ d.status = "online") := by
  constructor
  · intro p
    rw [ScanPorts_fst, List.mem_filter]
  · intro h1 h2 h3 h4
    rw [ScanPorts_fst] at h4
    exact scanHost_promotes_online rule env ip h1 h2 h3 h4

/-- Concrete instance of C7: with only port 22 answering, the open set is
exactly {22}, and a ping-dead host with it open is reported "online". -/
theorem scanPorts_open_iff_witness :
    (22 ∈ (ScanPorts (fun p => p == 22) {}).1 ∧
      23 ∉ (ScanPorts (fun p => p == 22) {}).1) ∧
    ∃ d, (scanHost {} { connOk := fun p => p == 22 } 9).1 = some d ∧
      d.status = "online" := by
  refine ⟨⟨?_, ?_⟩, ?_⟩
  · exact ((scanPorts_open_iff (fun p => p == 22) {} {} 9).1 22).mpr
      (by decide)
  · intro hmem
    have := ((scanPorts_open_iff (fun p => p == 22) {} {} 9).1 23).mp hmem
    simp at this
  · exact (scanPorts_open_iff (fun p => p == 22) {} { connOk := fun p => p == 22 } 9).2
      rfl (by decide) rfl (by decide)

/-! ### C9 -/

/-- C9: `isExcluded` is true iff the address lies in some entry that
parses as a CIDR block or equals some literal entry; malformed entries
never match; and the list ["10.0.0.5", "10.0.1.0/24"] matches exactly
10.0.0.5 and the addresses of 10.0.1.0/24. -/
theorem isExcluded_matching (ip : Nat) (l : List ExclEntry) :
    (isExcluded ip l = true ↔
      ((∃ base ones, ExclEntry.cidrBlock base ones ∈ l ∧
          cidrContains base ones ip = true) ∨
        ExclEntry.literal ip ∈ l)) ∧
    ((∀ e ∈ l, e = ExclEntry.malformed) → isExcluded ip l = false) ∧
    (∀ x : Nat,
      isExcluded x [ExclEntry.literal (ipv4 10 0 0 5),
        ExclEntry.cidrBlock (ipv4 10 0 1 0) 24] = true ↔
        (x = ipv4 10 0 0 5 ∨
          (ipv4 10 0 1 0 ≤ x ∧ x ≤ ipv4 10 0 1 255))) := by
  refine ⟨?_, ?_, ?_⟩
  · rw [isExcluded, List.any_eq_true]
    constructor
    · rintro ⟨e, he, hm⟩
      cases e with
      | cidrBlock b o => exact Or.inl ⟨b, o, he, hm⟩
      | literal a =>
        have ha : a = ip := by simpa using hm
        subst ha
        exact Or.inr he
      | malformed => simp at hm
    · rintro (⟨b, o, hmem, hc⟩ | hmem)
      · exact ⟨_, hmem, hc⟩
      · exact ⟨_, hmem, by simp⟩
  · intro h
    rw [isExcluded, List.any_eq_false]
    intro e he
    rw [h e he]
    simp
  · intro x
    simp only [isExcluded, List.any_cons, List.any_nil, Bool.or_false,
      Bool.or_eq_true, beq_iff_eq, cidrContains]
    norm_num [maskAddr, ipv4]
    constructor
    · rintro (h | h)
      · left; omega
      · right; omega
    · rintro (h | h)
      · left; omega
      · right; omega

/-- Concrete instance of C9: 10.0.1.77 is matched by the CIDR entry and
10.0.2.1 matches nothing. -/
theorem isExcluded_matching_witness :
    isExcluded (ipv4 10 0 1 77) [ExclEntry.literal (ipv4 10 0 0 5),
      ExclEntry.cidrBlock (ipv4 10 0 1 0) 24] = true ∧
    isExcluded (ipv4 10 0 2 1) [ExclEntry.literal (ipv4 10 0 0 5),
      ExclEntry.cidrBlock (ipv4 10 0 1 0) 24] = false := by
  constructor
  · exact ((isExcluded_matching (ipv4 10 0 1 77) []).2.2 (ipv4 10 0 1 77)).mpr
      (by right; constructor <;> decide)
  · have h := ((isExcluded_matching (ipv4 10 0 2 1) []).2.2 (ipv4 10 0 2 1))
    rw [← Bool.not_eq_true]
    intro hc
    rcases h.mp hc with hlit | hrange
    · exact absurd hlit (by decide)
    · exact absurd hrange (by decide)

/-! ### Service-loop helpers for the OS heuristic -/

/-- A non-"Unknown" family is never overridden by the SSH-service loop. -/
theorem foldl_sshUpgrade_fixed (l : List ServiceInfo) (g : OSGuess)
    (h : g.family ≠ "Unknown") : l.foldl sshUpgrade g = g := by
  induction l with
  | nil => rfl
  | cons svc rest ih =>
    have hstep : sshUpgrade g svc = g := by
      have hb : (g.family == "Unknown") = false := beq_eq_false_iff_ne.mpr h
      by_cases hs : (svc.service == "SSH") = true <;> simp [sshUpgrade, hs, hb]
    rw [List.foldl_cons, hstep, ih]

/-- An identified SSH service upgrades a still-unknown guess. -/
theorem foldl_sshUpgrade_unknown (l : List ServiceInfo)
    (h : ∃ svc ∈ l, svc.service = "SSH") :
    l.foldl sshUpgrade ⟨"Unknown", "Unknown"⟩ = ⟨"Linux/Unix", "Unix"⟩ := by
  induction l with
  | nil => simp at h
  | cons svc rest ih =>
    by_cases hs : svc.service = "SSH"
    · rw [List.foldl_cons]
      have hstep : sshUpgrade ⟨"Unknown", "Unknown"⟩ svc =
          ⟨"Linux/Unix", "Unix"⟩ := by
        simp [sshUpgrade, hs]
      rw [hstep]
      exact foldl_sshUpgrade_fixed rest _ (by simp)
    · rw [List.foldl_cons]
      have hstep : sshUpgrade ⟨"Unknown", "Unknown"⟩ svc =
          ⟨"Unknown", "Unknown"⟩ := by
        simp [sshUpgrade, hs]
      rw [hstep]
      apply ih
      rcases h with ⟨s, hmem, hss⟩
      rcases List.mem_cons.mp hmem with rfl | hmem2
      · exact absurd hss hs
      · exact ⟨s, hmem2, hss⟩

/-- Without an identified SSH service the loop changes nothing. -/
theorem foldl_sshUpgrade_none (l : List ServiceInfo) (g : OSGuess)
    (h : ∀ svc ∈ l, svc.service ≠ "SSH") : l.foldl sshUpgrade g = g := by
  induction l with
  | nil => rfl
  | cons svc rest ih =>
    have hstep : sshUpgrade g svc = g := by
      have hs : (svc.service == "SSH") = false :=
        beq_eq_false_iff_ne.mpr (h svc (List.mem_cons_self svc rest))
      simp [sshUpgrade, hs]
    rw [List.foldl_cons, hstep]
    exact ih fun s hs2 => h s (List.mem_cons_of_mem svc hs2)

/-! ### C5 -/

/-- C5: `guessOS` performs exactly the sequential case analysis of the
spec: Windows ports without Unix ports give Windows/Windows; the reverse
gives Linux/Unix; otherwise presence of the narrower Unix pair gives
Unix-like/Unix; with no port signal, an identified SSH service upgrades
the unknown guess to Linux/Unix, and without one the guess stays
Unknown.  The port-derived non-unknown families are independent of the
services, so no single signal overrides an already-set family. -/
theorem guessOS_cases (d : DiscoveredDevice) :
    (containsAny d.openPorts [135, 139, 445, 3389] = true →
      containsAny d.openPorts [22, 111, 2049] = false →
      guessOS d = ⟨"Windows", "Windows"⟩) ∧
    (containsAny d.openPorts [22, 111, 2049] = true →
      containsAny d.openPorts [135, 139, 445, 3389] = false →
      guessOS d = ⟨"Linux", "Unix"⟩) ∧
    (containsAny d.openPorts [135, 139, 445, 3389] = true →
      containsAny d.openPorts [22, 111, 2049] = true →
      containsAny d.openPorts [22, 111] = true →
      guessOS d = ⟨"Unix-like", "Unix"⟩) ∧
    (containsAny d.openPorts [135, 139, 445, 3389] = false →
      containsAny d.openPorts [22, 111, 2049] = false →
      (∃ svc ∈ d.services, svc.service = "SSH") →
      guessOS d = ⟨"Linux/Unix", "Unix"⟩) ∧
    (containsAny d.openPorts [135, 139, 445, 3389] = false →
      containsAny d.openPorts [22, 111, 2049] = false →
      (∀ svc ∈ d.services, svc.service ≠ "SSH") →
      guessOS d = ⟨"Unknown", "Unknown"⟩) := by
  have hUW : containsAny d.openPorts [22, 111, 2049] = false →
      containsAny d.openPorts [22, 111] = false := by
    intro hL
    simp only [containsAny, List.any_cons, List.any_nil, Bool.or_false,
      Bool.or_eq_false_iff] at hL ⊢
    exact ⟨hL.1, hL.2.1⟩
  refine ⟨?_, ?_, ?_, ?_, ?_⟩
  · intro hW hL
    simp only [guessOS, hW, hL, Bool.not_false, Bool.and_self, if_true]
    exact foldl_sshUpgrade_fixed _ _ (by simp)
  · intro hL hW
    simp only [guessOS, hW, hL, Bool.not_false, Bool.not_true,
      Bool.false_and, Bool.and_false, Bool.and_self, if_false, if_true]
    exact foldl_sshUpgrade_fixed _ _ (by simp)
  · intro hW hL hU
    simp only [guessOS, hW, hL, hU, Bool.not_true, Bool.and_false, if_false,
      if_true]
    exact foldl_sshUpgrade_fixed _ _ (by simp)
  · intro hW hL hssh
    simp only [guessOS, hW, hL, hUW hL, Bool.false_and, Bool.and_false,
      if_false]
    exact foldl_sshUpgrade_unknown _ hssh
  · intro hW hL hnossh
    simp only [guessOS, hW, hL, hUW hL, Bool.false_and, Bool.and_false,
      if_false]
    exact foldl_sshUpgrade_none _ _ hnossh

/-- Concrete instances of C5: port 445 alone gives Windows; port 22 alone
gives Linux; no ports with an SSH service gives Linux/Unix. -/
theorem guessOS_cases_witness :
    guessOS { openPorts := [445] } = ⟨"Windows", "Windows"⟩ ∧
    guessOS { openPorts := [22] } = ⟨"Linux", "Unix"⟩ ∧
    guessOS { services := [{ service := "SSH" }] } = ⟨"Linux/Unix", "Unix"⟩ :=
  ⟨(guessOS_cases _).1 (by decide) (by decide),
    (guessOS_cases _).2.1 (by decide) (by decide),
    (guessOS_cases _).2.2.2.1 (by decide) (by decide)
      ⟨{ service := "SSH" }, by simp, rfl⟩⟩

/-! ### Enumerator helpers -/

/-- With a prefix of at most 30 bits, the enumerated addresses are
exactly the block's addresses strictly between the network and the
broadcast address. -/
theorem mem_generateIPList_le30 (base ones : Nat) (h : ones ≤ 30) (x : Nat) :
    x ∈ generateIPList base ones ↔
      maskAddr ones base < x ∧
        x < maskAddr ones base + 2 ^ (32 - ones) - 1 := by
  have hsize : 4 ≤ 2 ^ (32 - ones) := by
    calc (4 : Nat) = 2 ^ 2 := by norm_num
    _ ≤ 2 ^ (32 - ones) := Nat.pow_le_pow_right (by norm_num) (by omega)
  unfold generateIPList
  simp only [List.mem_filter, List.mem_map, List.mem_range, decide_eq_true h,
    Bool.true_and, Bool.not_or, Bool.and_eq_true, Bool.not_eq_true',
    beq_eq_false_iff_ne]
  constructor
  · rintro ⟨⟨i, hi, rfl⟩, hne1, hne2⟩
    omega
  · rintro ⟨h1, h2⟩
    exact ⟨⟨x - maskAddr ones base, by omega, by omega⟩, by omega, by omega⟩

/-- With a prefix of 31 or 32 bits, every address of the block is
enumerated. -/
theorem mem_generateIPList_ge31 (base ones : Nat) (h : 31 ≤ ones) (x : Nat) :
    x ∈ generateIPList base ones ↔
      maskAddr ones base ≤ x ∧ x < maskAddr ones base + 2 ^ (32 - ones) := by
  have hd : decide (ones ≤ 30) = false := decide_eq_false (by omega)
  unfold generateIPList
  simp only [hd, Bool.false_and, Bool.not_false, List.filter_true,
    List.mem_map, List.mem_range]
  constructor
  · rintro ⟨i, hi, rfl⟩
    omega
  · rintro ⟨h1, h2⟩
    exact ⟨x - maskAddr ones base, by omega, by omega⟩

/-- The enumerated candidate list is never empty. -/
theorem generateIPList_ne_nil (base ones : Nat) :
    generateIPList base ones ≠ [] := by
  by_cases h : ones ≤ 30
  · have hsize : 4 ≤ 2 ^ (32 - ones) := by
      calc (4 : Nat) = 2 ^ 2 := by norm_num
      _ ≤ 2 ^ (32 - ones) := Nat.pow_le_pow_right (by norm_num) (by omega)
    exact List.ne_nil_of_mem
      ((mem_generateIPList_le30 base ones h (maskAddr ones base + 1)).mpr
        ⟨by omega, by omega⟩)
  · have hsize : 0 < 2 ^ (32 - ones) := pow_pos (by norm_num) _
    exact List.ne_nil_of_mem
      ((mem_generateIPList_ge31 base ones (by omega) (maskAddr ones base)).mpr
        ⟨le_refl _, by omega⟩)

/-! ### C2 -/

/-- C2: `generateIPList` walks every address of the block upward; for a
prefix ≤ 30 it omits exactly the network and broadcast addresses, for
prefixes 31 and 32 it omits nothing; /24 yields 254 addresses without
the .0 and .255 endpoints, /30 yields {.1, .2} and /31 yields {.0, .1}. -/
theorem generateIPList_enumeration :
    (∀ base ones, ones ≤ 30 → ∀ x,
      (x ∈ generateIPList base ones ↔
        maskAddr ones base < x ∧
          x < maskAddr ones base + 2 ^ (32 - ones) - 1)) ∧
    (∀ base ones, 31 ≤ ones → ∀ x,
      (x ∈ generateIPList base ones ↔
        maskAddr ones base ≤ x ∧ x < maskAddr ones base + 2 ^ (32 - ones))) ∧
    (generateIPList (ipv4 192 168 1 0) 24).length = 254 ∧
    ipv4 192 168 1 0 ∉ generateIPList (ipv4 192 168 1 0) 24 ∧
    ipv4 192 168 1 255 ∉ generateIPList (ipv4 192 168 1 0) 24 ∧
    generateIPList (ipv4 192 168 1 0) 30 =
      [ipv4 192 168 1 1, ipv4 192 168 1 2] ∧
    generateIPList (ipv4 192 168 1 0) 31 =
      [ipv4 192 168 1 0, ipv4 192 168 1 1] :=
  ⟨mem_generateIPList_le30, mem_generateIPList_ge31, by decide, by decide,
    by decide, by decide, by decide⟩

/-- Concrete instance of C2: 192.168.1.77 is enumerated in
192.168.1.0/24. -/
theorem generateIPList_enumeration_witness :
    ipv4 192 168 1 77 ∈ generateIPList (ipv4 192 168 1 0) 24 :=
  (generateIPList_enumeration.1 (ipv4 192 168 1 0) 24 (by decide)
    (ipv4 192 168 1 77)).mpr (by decide)

/-! ### C8 -/

/-- C8: when resolving the network record fails, `ScanNetwork` marks the
scan failed with a non-empty error message, timestamps completion,
reports the failed scan as the last update, returns the error, and does
no per-host work (`scanned_hosts = 0`, `found_hosts = 0`, no device
persisted, `total_hosts` left unset); a subnet that does not parse takes
the identical abort path. -/
theorem scanNetwork_fatal_abort (env : NetEnv) (rule : DiscoveryRule) :
    (∀ e, env.getNetworkRes = .error e →
      (ScanNetwork env rule).1.status = "failed" ∧
      (ScanNetwork env rule).1.errorMessage ≠ "" ∧
      (ScanNetwork env rule).1.completedAt = true ∧
      (ScanNetwork env rule).2.1.getLast? = some (ScanNetwork env rule).1 ∧
      (ScanNetwork env rule).2.2.2 = some ("getting network: " ++ e) ∧
      (ScanNetwork env rule).1.scannedHosts = 0 ∧
      (ScanNetwork env rule).1.foundHosts = 0 ∧
      (ScanNetwork env rule).1.totalHosts = 0 ∧
      (ScanNetwork env rule).2.2.1 = []) ∧
    (env.getNetworkRes = .ok none →
      (ScanNetwork env rule).1.status = "failed" ∧
      (ScanNetwork env rule).1.errorMessage ≠ "" ∧
      (ScanNetwork env rule).1.completedAt = true ∧
      (ScanNetwork env rule).2.1.getLast? = some (ScanNetwork env rule).1 ∧
      (∃ msg, (ScanNetwork env rule).2.2.2 = some msg) ∧
      (ScanNetwork env rule).1.scannedHosts = 0 ∧
      (ScanNetwork env rule).1.foundHosts = 0 ∧
      (ScanNetwork env rule).1.totalHosts = 0 ∧
      (ScanNetwork env rule).2.2.1 = []) := by
  constructor
  · intro e he
    have hmsg : "getting network: " ++ e ≠ "" := by
      intro hh
      have h2 := congrArg String.length hh
      simp [String.length_append] at h2
      exact absurd h2.1 (by decide)
    refine ⟨?_, ?_, ?_, ?_, ?_, ?_, ?_, ?_, ?_⟩ <;>
      simp [ScanNetwork, he, hmsg]
  · intro he
    refine ⟨?_, ?_, ?_, ?_, ?_, ?_, ?_, ?_, ?_⟩ <;>
      simp [ScanNetwork, he]

/-- Concrete instance of C8: a failing network lookup aborts the run
with a failed scan and zero counters. -/
theorem scanNetwork_fatal_abort_witness :
    (ScanNetwork { getNetworkRes := .error "network not found" } {}).1.status
        = "failed" ∧
    (ScanNetwork { getNetworkRes := .error "network not found" } {}).1.scannedHosts
        = 0 :=
  ⟨((scanNetwork_fatal_abort { getNetworkRes := .error "network not found" } {}).1
      "network not found" rfl).1,
    ((scanNetwork_fatal_abort { getNetworkRes := .error "network not found" } {}).1
      "network not found" rfl).2.2.2.2.2.1⟩

/-! ### Orchestrator helpers -/

/-- An excluded address leaves the run state untouched (in particular the
scanned counter is not incremented). -/
theorem hostStep_excluded (rule : DiscoveryRule) (henv : Nat → HostEnv)
    (st : RunState) (ip : Nat) (h : isExcluded ip rule.excludeIPs = true) :
    hostStep rule henv st ip = st := by
  simp [hostStep, h]

/-- A non-excluded host increments the scanned counter by one, preserves
`total_hosts`, and recomputes the progress percentage. -/
theorem hostStep_not_excluded (rule : DiscoveryRule) (henv : Nat → HostEnv)
    (st : RunState) (ip : Nat)
    (h : isExcluded ip rule.excludeIPs = false) :
    (hostStep rule henv st ip).scan.scannedHosts = st.scan.scannedHosts + 1 ∧
    (hostStep rule henv st ip).scan.totalHosts = st.scan.totalHosts ∧
    (0 < st.scan.totalHosts →
      (hostStep rule henv st ip).scan.progressPercent =
        ((st.scan.scannedHosts + 1 : Nat) : ℚ) /
          (st.scan.totalHosts : ℚ) * 100) ∧
    (st.scan.totalHosts = 0 →
      (hostStep rule henv st ip).scan.progressPercent =
        st.scan.progressPercent) := by
  rcases hsc : scanHost rule (henv ip) ip with ⟨dOpt, er⟩
  have her : er = none := by
    have hn := scanHost_snd_none rule (henv ip) ip
    rw [hsc] at hn
    exact hn
  subst her
  rcases dOpt with _ | dev <;>
    by_cases ht : 0 < st.scan.totalHosts <;>
    simp [hostStep, h, hsc, ht, apply_ite (fun x : DiscoveryScan => x.scannedHosts),
      apply_ite (fun x : DiscoveryScan => x.totalHosts),
      apply_ite (fun x : DiscoveryScan => x.progressPercent),
      apply_ite (fun x : RunState => x.scan)] <;> omega

/-- Invariants of the per-host fold of `ScanNetwork`: `total_hosts` is
preserved, the scanned counter grows by exactly the number of
non-excluded candidates, and whenever at least one candidate was
processed the progress percentage equals scanned/total*100. -/
theorem foldl_hostStep_spec (rule : DiscoveryRule) (henv : Nat → HostEnv)
    (ips : List Nat) :
    ∀ st : RunState,
      (ips.foldl (hostStep rule henv) st).scan.totalHosts =
        st.scan.totalHosts ∧
      (ips.foldl (hostStep rule henv) st).scan.scannedHosts =
        st.scan.scannedHosts +
          (ips.filter fun ip => !isExcluded ip rule.excludeIPs).length ∧
      ((ips.filter fun ip => !isExcluded ip rule.excludeIPs) = [] →
        (ips.foldl (hostStep rule henv) st).scan.progressPercent =
          st.scan.progressPercent) ∧
      ((ips.filter fun ip => !isExcluded ip rule.excludeIPs) ≠ [] →
        0 < st.scan.totalHosts →
        (ips.foldl (hostStep rule henv) st).scan.progressPercent =
          ((ips.foldl (hostStep rule henv) st).scan.scannedHosts : ℚ) /
            (st.scan.totalHosts : ℚ) * 100) ∧
      (st.scan.totalHosts = 0 →
        (ips.foldl (hostStep rule henv) st).scan.progressPercent =
          st.scan.progressPercent) := by
  induction ips with
  | nil => intro st; simp
  | cons ip rest ih =>
    intro st
    by_cases hex : isExcluded ip rule.excludeIPs = true
    · have hstep := hostStep_excluded rule henv st ip hex
      have hfil : (List.filter (fun i => !isExcluded i rule.excludeIPs)
          (ip :: rest)) = rest.filter fun i => !isExcluded i rule.excludeIPs := by
        simp [List.filter_cons, hex]
      rw [List.foldl_cons, hstep, hfil]
      exact ih st
    · have hex' : isExcluded ip rule.excludeIPs = false :=
        Bool.not_eq_true _ ▸ (Bool.eq_false_iff.mpr hex)
      obtain ⟨hs1, hs2, hs3, hs4⟩ := hostStep_not_excluded rule henv st ip hex'
      have hfil : (List.filter (fun i => !isExcluded i rule.excludeIPs)
          (ip :: rest)) =
          ip :: (rest.filter fun i => !isExcluded i rule.excludeIPs) := by
        simp [List.filter_cons, hex']
      obtain ⟨ih1, ih2, ih3, ih4, ih5⟩ := ih (hostStep rule henv st ip)
      rw [List.foldl_cons, hfil]
      refine ⟨ih1.trans hs2, ?_, ?_, ?_, ?_⟩
      · rw [ih2, hs1]
        simp
        omega
      · intro hcontra
        exact absurd hcontra (List.cons_ne_nil _ _)
      · intro _ ht
        by_cases hrest : (rest.filter fun i => !isExcluded i rule.excludeIPs) = []
        · rw [ih3 hrest, hs3 ht, ih2, hrest]
          simp [hs1]
        · rw [ih4 hrest (by rw [hs2]; exact ht), hs2]
      · intro ht
        rw [ih5 (by rw [hs2]; exact ht), hs4 ht]

/-- Reduction of `ScanNetwork` on a successful network lookup with a
parseable subnet. -/
theorem ScanNetwork_ok_eq (env : NetEnv) (rule : DiscoveryRule)
    (base ones : Nat) (h : env.getNetworkRes = .ok (some (base, ones))) :
    ScanNetwork env rule =
      (let ips := generateIPList base ones
       let scan0 : DiscoveryScan :=
         { status := "running"
           scanType := rule.scanType
           scanDepth := getDepthFromType rule.scanType
           startedAt := true }
       let scan1 : DiscoveryScan := { scan0 with totalHosts := ips.length }
       let stInit : RunState := ⟨scan1, [], [scan0] ++ [scan1]⟩
       let stEnd := ips.foldl (hostStep rule env.hostEnvOf) stInit
       let finalScan : DiscoveryScan :=
         { stEnd.scan with status := "completed", completedAt := true }
       (finalScan, stEnd.updates ++ [finalScan], stEnd.persisted, none)) := by
  unfold ScanNetwork
  rw [h]

/-! ### C1 -/

/-- C1 counterexample: over 10.0.1.0/30 with candidate 10.0.1.1 excluded,
the run completes without error but ends with `scanned_hosts = 1` while
`total_hosts = 2` — the claimed completion equality fails because an
excluded host skips the scanned-counter increment entirely. -/
theorem scanNetwork_progress_claim_cex :
    (ScanNetwork envSlash30 ruleExcludingOne).1.status = "completed" ∧
    (ScanNetwork envSlash30 ruleExcludingOne).2.2.2 = none ∧
    (ScanNetwork envSlash30 ruleExcludingOne).1.totalHosts = 2 ∧
    (ScanNetwork envSlash30 ruleExcludingOne).1.scannedHosts = 1 ∧
    (ScanNetwork envSlash30 ruleExcludingOne).1.scannedHosts ≠
      (ScanNetwork envSlash30 ruleExcludingOne).1.totalHosts := by
  decide

/-- C1 (amended): in every non-aborted run, the scanned counter is
incremented and the progress percentage recomputed as scanned/total*100
for every *non-excluded* candidate host (excluded hosts leave the state
untouched); `scanned_hosts` is monotonically non-decreasing along the
run; at completion `scanned_hosts` equals the number of non-excluded
candidates, so `scanned_hosts = total_hosts` and
`progress_percent = 100` hold exactly when no candidate was excluded. -/
theorem scanNetwork_progress_accounting (env : NetEnv) (rule : DiscoveryRule)
    (base ones : Nat) (h : env.getNetworkRes = .ok (some (base, ones))) :
    (ScanNetwork env rule).2.2.2 = none ∧
    (ScanNetwork env rule).1.status = "completed" ∧
    (ScanNetwork env rule).1.totalHosts = (generateIPList base ones).length ∧
    (ScanNetwork env rule).1.scannedHosts =
      ((generateIPList base ones).filter
        fun ip => !isExcluded ip rule.excludeIPs).length ∧
    (∀ (st : RunState) (l1 l2 : List Nat),
      (l1.foldl (hostStep rule env.hostEnvOf) st).scan.scannedHosts ≤
        ((l1 ++ l2).foldl (hostStep rule env.hostEnvOf) st).scan.scannedHosts) ∧
    (∀ (st : RunState) (ip : Nat),
      isExcluded ip rule.excludeIPs = false →
      (hostStep rule env.hostEnvOf st ip).scan.scannedHosts =
        st.scan.scannedHosts + 1 ∧
      (0 < st.scan.totalHosts →
        (hostStep rule env.hostEnvOf st ip).scan.progressPercent =
          ((st.scan.scannedHosts + 1 : Nat) : ℚ) /
            (st.scan.totalHosts : ℚ) * 100)) ∧
    (∀ (st : RunState) (ip : Nat),
      isExcluded ip rule.excludeIPs = true →
      hostStep rule env.hostEnvOf st ip = st) ∧
    ((∀ ip ∈ generateIPList base ones,
        isExcluded ip rule.excludeIPs = false) →
      (ScanNetwork env rule).1.scannedHosts =
        (ScanNetwork env rule).1.totalHosts ∧
      (ScanNetwork env rule).1.progressPercent = 100) := by
  have hips : generateIPList base ones ≠ [] := generateIPList_ne_nil base ones
  rw [ScanNetwork_ok_eq env rule base ones h]
  obtain ⟨k1, k2, k3, k4, k5⟩ :=
    foldl_hostStep_spec rule env.hostEnvOf (generateIPList base ones)
      ⟨{ status := "running"
         scanType := rule.scanType
         scanDepth := getDepthFromType rule.scanType
         totalHosts := (generateIPList base ones).length
         startedAt := true }, [],
        [{ status := "running"
           scanType := rule.scanType
           scanDepth := getDepthFromType rule.scanType
           startedAt := true },
         { status := "running"
           scanType := rule.scanType
           scanDepth := getDepthFromType rule.scanType
           totalHosts := (generateIPList base ones).length
           startedAt := true }]⟩
  refine ⟨rfl, rfl, k1, k2.trans (Nat.zero_add _), ?_, ?_, ?_, ?_⟩
  · intro st l1 l2
    rw [List.foldl_append,
      (foldl_hostStep_spec rule env.hostEnvOf l2
        (l1.foldl (hostStep rule env.hostEnvOf) st)).2.1]
    exact Nat.le_add_right _ _
  · intro st ip hex
    obtain ⟨hs1, _, hs3, _⟩ := hostStep_not_excluded rule env.hostEnvOf st ip hex
    exact ⟨hs1, hs3⟩
  · intro st ip hex
    exact hostStep_excluded rule env.hostEnvOf st ip hex
  · intro hall
    have hfeq : ((generateIPList base ones).filter
        fun ip => !isExcluded ip rule.excludeIPs) = generateIPList base ones :=
      List.filter_eq_self.mpr fun a ha => by rw [hall a ha]; rfl
    have hscan := k2.trans (Nat.zero_add _)
    constructor
    · exact hscan.trans (by rw [hfeq]) |>.trans k1.symm
    · have hne : ((generateIPList base ones).filter
          fun ip => !isExcluded ip rule.excludeIPs) ≠ [] := by
        rw [hfeq]; exact hips
      have hlen : (generateIPList base ones).length ≠ 0 :=
        fun h0 => hips (List.length_eq_zero.mp h0)
      have hpos : (0 : Nat) < (generateIPList base ones).length :=
        Nat.pos_of_ne_zero hlen
      have hp := k4 hne hpos
      refine hp.trans ?_
      have hscan2 : ((generateIPList base ones).foldl
          (hostStep rule env.hostEnvOf)
          ⟨{ status := "running"
             scanType := rule.scanType
             scanDepth := getDepthFromType rule.scanType
             totalHosts := (generateIPList base ones).length
             startedAt := true }, [],
            [{ status := "running"
               scanType := rule.scanType
               scanDepth := getDepthFromType rule.scanType
               startedAt := true },
             { status := "running"
               scanType := rule.scanType
               scanDepth := getDepthFromType rule.scanType
               totalHosts := (generateIPList base ones).length
               startedAt := true }]⟩).scan.scannedHosts =
          (generateIPList base ones).length := by
        rw [hscan, hfeq]
      rw [hscan2]
      rw [div_self (by exact_mod_cast hlen), one_mul]

/-- Concrete instance of C1 (amended): over 10.0.1.0/30 with no
exclusions, the run ends with `scanned_hosts = total_hosts` and
`progress_percent = 100`. -/
theorem scanNetwork_progress_accounting_witness :
    (ScanNetwork envSlash30 {}).1.scannedHosts =
      (ScanNetwork envSlash30 {}).1.totalHosts ∧
    (ScanNetwork envSlash30 {}).1.progressPercent = 100 :=
  (scanNetwork_progress_accounting envSlash30 {} (ipv4 10 0 1 0) 30
    rfl).2.2.2.2.2.2.2 (fun _ _ => rfl)

end Rackd
